import Mathlib

set_option linter.unusedVariables false

/-
Verification of the multi-channel notification delivery engine
(notifications app: channels.py, service.py, models.py, tasks.py).

Shallow embedding: each Python function is translated to a Lean function.
External collaborators (SMTP, Twilio, Telegram HTTP, the Celery worker)
are modelled as oracle parameters: a transport call that may raise is an
`Except String` value, and a channel `send` that may let an exception
escape returns `Except String Bool` (an `Except.error` models an uncaught
Python exception propagating to the caller).
-/

namespace NotifApp

/-- Python truthiness of a nullable CharField value: `None` and the empty
string are falsy, any other string is truthy. -/
def truthy : Option String → Bool
  | none => false
  | some s => s != ""

/-- Django settings consulted by the channels.  Plain `String` fields model
attributes that always exist (empty string = unset/falsy); `Option String`
models attributes accessed with `hasattr`/`getattr(..., None)`. -/
structure Settings where
  EMAIL_HOST_USER : String
  EMAIL_HOST_PASSWORD : String
  EMAIL_HOST : String
  DEFAULT_FROM_EMAIL : String
  TWILIO_ACCOUNT_SID : Option String
  TWILIO_AUTH_TOKEN : Option String
  TWILIO_PHONE_NUMBER : String
  TELEGRAM_BOT_TOKEN : Option String
deriving DecidableEq

/-- models.UserProfile: optional phone number and Telegram chat id. -/
structure UserProfile where
  phone_number : Option String
  telegram_chat_id : Option String
deriving DecidableEq

/-- The recipient: a Django auth User (email is a plain CharField, empty
string = absent) together with its optional UserProfile
(`getattr(user, 'userprofile', None)`). -/
structure User where
  email : String
  userprofile : Option UserProfile
deriving DecidableEq

/-- channels.EmailChannel.channel_name. -/
def EmailChannel.channel_name : String := "email"

/-- Embeds channels.EmailChannel.send.  `sendMail` is the oracle for the
`django.core.mail.send_mail` call (`Except.error` = the call raised).
Guard order follows the source: missing address, then (inside try)
unconfigured email settings, then the transport call; the `except
Exception` clause converts any raise into `False`. -/
def EmailChannel.send (st : Settings) (sendMail : Except String Unit)
    (user : User) (subject message : String) : Except String Bool :=
  if user.email = "" then Except.ok false
  else if st.EMAIL_HOST_USER = "" ∨ st.EMAIL_HOST_PASSWORD = "" ∨ st.EMAIL_HOST = "" then
    Except.ok false
  else
    match sendMail with
    | Except.ok _ => Except.ok true
    | Except.error _ => Except.ok false

/-- channels.TwilioSMSChannel.channel_name. -/
def TwilioSMSChannel.channel_name : String := "sms"

/-- Whether TwilioSMSChannel.__init__ created a client: both credential
settings exist (`hasattr`) and are truthy. -/
def TwilioSMSChannel.clientConfigured (st : Settings) : Bool :=
  match st.TWILIO_ACCOUNT_SID, st.TWILIO_AUTH_TOKEN with
  | some sid, some tok => sid != "" && tok != ""
  | _, _ => false

/-- Embeds channels.TwilioSMSChannel.send.  `create` is the oracle for
`client.messages.create` (ok carries the message SID).  Guards follow the
source: no client, no profile / no phone number, then the transport call;
both `except` clauses (TwilioRestException and Exception) return `False`. -/
def TwilioSMSChannel.send (st : Settings) (create : Except String String)
    (user : User) (subject message : String) : Except String Bool :=
  if !TwilioSMSChannel.clientConfigured st then Except.ok false
  else
    match user.userprofile with
    | none => Except.ok false
    | some profile =>
      if !truthy profile.phone_number then Except.ok false
      else
        match create with
        | Except.ok _ => Except.ok true
        | Except.error _ => Except.ok false

/-- Outcome of the Telegram sendMessage HTTP call as the source consumes
it: HTTP status code, the `ok` field of the JSON body, and the optional
`description`. -/
structure TelegramResponse where
  status_code : Nat
  ok : Bool
  description : String
deriving DecidableEq

/-- channels.TelegramChannel.channel_name. -/
def TelegramChannel.channel_name : String := "telegram"

/-- Embeds channels.TelegramChannel.send.  `post` is the oracle for
`requests.post` plus `response.json()` (`Except.error` = either raised).
Guards follow the source: no profile / no chat id, no bot token, then the
HTTP call; success requires status 200 and a truthy `ok` field; both
`except` clauses return `False`. -/
def TelegramChannel.send (st : Settings) (post : Except String TelegramResponse)
    (user : User) (subject message : String) : Except String Bool :=
  match user.userprofile with
  | none => Except.ok false
  | some profile =>
    if !truthy profile.telegram_chat_id then Except.ok false
    else if !truthy st.TELEGRAM_BOT_TOKEN then Except.ok false
    else
      match post with
      | Except.error _ => Except.ok false
      | Except.ok r =>
        if r.status_code = 200 && r.ok then Except.ok true
        else Except.ok false

/-- models.Notification.status choices. -/
inductive Status where
  | pending
  | sent
  | failed
deriving DecidableEq

/-- models.Notification: persisted delivery record.  `sent_via` defaults
to the empty string (`blank=True`); `sent_at` is nullable and starts as
NULL (`none`).  `created_at` (auto_now_add) plays no role in the claims
and is omitted; time stamps are Nat. -/
structure Notification where
  subject : String
  message : String
  status : Status
  sent_via : String
  sent_at : Option Nat
deriving DecidableEq

/-- Behaviour of one channel's `send` call as the engine observes it:
it returned a boolean, or it raised. -/
inductive SendOutcome where
  | ok (b : Bool)
  | raises (msg : String)
deriving DecidableEq

/-- One entry of `self.channels`: its `channel_name` and the outcome of
the single `send` call the engine makes on it during one run. -/
structure Channel where
  channel_name : String
  send : SendOutcome
deriving DecidableEq

/-- Everything one run of NotificationService.send produces:
the return value, the final Delivery Record, the trace of persisted
record states (the `objects.create` snapshot and each `save()` snapshot,
in order), `self.failed_channels`, and `self.last_successful_channel`. -/
structure RunResult where
  returned : Bool
  record : Notification
  saves : List Notification
  failed_channels : List String
  last_successful_channel : Option String
deriving DecidableEq

/-- Converts a channel `send` result in the Except model into the outcome
the engine's `try` block observes. -/
def SendOutcome.ofExcept : Except String Bool → SendOutcome
  | Except.ok b => SendOutcome.ok b
  | Except.error e => SendOutcome.raises e

/-- The `for channel in self.channels` loop of NotificationService.send,
carrying the pending record and the accumulated failed-channels list.
On `ok true`: status `sent` and `sent_via` are set and the record saved,
the loop stops, True is returned.  On `ok false` or a raise: the channel
name is appended to failed_channels and the loop continues.  On
exhaustion: status `failed` is set, the record saved, False returned. -/
def sendLoop (notif : Notification) (channels : List Channel)
    (failed : List String) : RunResult :=
  match channels with
  | [] =>
    let final := { notif with status := Status.failed }
    { returned := false, record := final, saves := [final],
      failed_channels := failed, last_successful_channel := none }
  | ch :: rest =>
    match ch.send with
    | SendOutcome.ok true =>
      let final := { notif with status := Status.sent, sent_via := ch.channel_name }
      { returned := true, record := final, saves := [final],
        failed_channels := failed, last_successful_channel := some ch.channel_name }
    | SendOutcome.ok false => sendLoop notif rest (failed ++ [ch.channel_name])
    | SendOutcome.raises _ => sendLoop notif rest (failed ++ [ch.channel_name])

/-- Embeds service.NotificationService.send: create the record with
status `pending` (and NULL sent_at), then run the channel loop with an
empty failed list.  The channel list is the service's ordered
`self.channels`. -/
def NotificationService.send (subject message : String)
    (channels : List Channel) : RunResult :=
  let notif0 : Notification :=
    { subject := subject, message := message, status := Status.pending,
      sent_via := "", sent_at := none }
  let r := sendLoop notif0 channels []
  { r with saves := notif0 :: r.saves }

/-- The dict returned by service.NotificationService.get_delivery_report. -/
structure Report where
  success : Bool
  successful_channel : Option String
  failed_channels : List String
  total_channels_attempted : Nat
deriving DecidableEq

/-- Embeds service.NotificationService.get_delivery_report, computed from
the state the run left on the service. -/
def get_delivery_report (r : RunResult) : Report :=
  { success := r.last_successful_channel.isSome
  , successful_channel := r.last_successful_channel
  , failed_channels := r.failed_channels
  , total_channels_attempted :=
      r.failed_channels.length +
        (if r.last_successful_channel.isSome then 1 else 0) }

/-- The ordered channel list NotificationService.__init__ builds:
Telegram first, email second, SMS third, each with the behaviour its
`send` has for the given user, settings and transport oracles. -/
def NotificationService.defaultChannels (st : Settings) (user : User)
    (subject message : String) (tgRes : Except String TelegramResponse)
    (mailRes : Except String Unit) (twRes : Except String String) : List Channel :=
  [ { channel_name := TelegramChannel.channel_name,
      send := SendOutcome.ofExcept (TelegramChannel.send st tgRes user subject message) },
    { channel_name := EmailChannel.channel_name,
      send := SendOutcome.ofExcept (EmailChannel.send st mailRes user subject message) },
    { channel_name := TwilioSMSChannel.channel_name,
      send := SendOutcome.ofExcept (TwilioSMSChannel.send st twRes user subject message) } ]

/-- The Python exceptions tasks.send_notification_task can see:
User.DoesNotExist, celery.exceptions.Retry (carrying the countdown),
celery.exceptions.MaxRetriesExceededError, and any other exception. -/
inductive PyExc where
  | doesNotExist
  | retryExc (countdown : Nat)
  | maxRetriesExceeded
  | other (msg : String)
deriving DecidableEq

/-- The dicts tasks.send_notification_task can return: the success dict
(with the delivering channel), the user-not-found error dict, and the
max-retries-exceeded error dict. -/
inductive TaskReturn where
  | successDict (channel : Option String)
  | userNotFound
  | maxRetriesExceededDict
deriving DecidableEq

/-- How one execution of the task ends at the worker boundary: the
function returned a value, or an exception escaped it (a `retryExc`
escaping is what schedules a retry). -/
inductive TaskOutcome where
  | returned (r : TaskReturn)
  | raised (e : PyExc)
deriving DecidableEq

/-- The task's `max_retries=3` configuration. -/
def max_retries : Nat := 3

/-- Models Celery's documented `Task.retry` semantics (the Celery library
is an external collaborator, not part of this repository): with
`self.request.retries` current retries, `self.retry(countdown=c)` raises
`Retry` when retries remain and `MaxRetriesExceededError` once the
configured maximum is reached. -/
def celeryRetry (retries countdown : Nat) : PyExc :=
  if retries < max_retries then PyExc.retryExc countdown
  else PyExc.maxRetriesExceeded

/-- Embeds tasks.send_notification_task for one execution.  `retries` is
`self.request.retries`; `userExists` is whether `User.objects.get`
succeeds; `engine` is the outcome of `service.send()` (`Except.error` =
the engine or its surroundings raised unexpectedly); `lastChannel` is
`service.last_successful_channel` on success.  The outer try body either
returns the success dict, or raises: DoesNotExist, an unexpected
exception, or whatever `self.retry(countdown=60)` raises on total
failure.  `except User.DoesNotExist` returns the not-found dict.
`except Exception` (which also catches Retry and
MaxRetriesExceededError raised by the first `self.retry` call) calls
`self.retry(countdown=30)` again: the resulting Retry escapes to the
worker, while MaxRetriesExceededError is caught and the exhaustion dict
returned. -/
def send_notification_task (retries : Nat) (userExists : Bool)
    (engine : Except String Bool) (lastChannel : Option String) : TaskOutcome :=
  let body : Except PyExc TaskReturn :=
    if userExists then
      match engine with
      | Except.error msg => Except.error (PyExc.other msg)
      | Except.ok true => Except.ok (TaskReturn.successDict lastChannel)
      | Except.ok false => Except.error (celeryRetry retries 60)
    else Except.error PyExc.doesNotExist
  match body with
  | Except.ok r => TaskOutcome.returned r
  | Except.error PyExc.doesNotExist => TaskOutcome.returned TaskReturn.userNotFound
  | Except.error _ =>
    match celeryRetry retries 30 with
    | PyExc.maxRetriesExceeded => TaskOutcome.returned TaskReturn.maxRetriesExceededDict
    | e => TaskOutcome.raised e

/-- The worker-side retry loop: run the task, and as long as a `Retry`
escapes, run it again with the retry counter incremented.  `envs r` gives
the environment (user existence, engine outcome, last channel) of the
execution at retry count `r`; the result counts how many retries were
actually scheduled.  `fuel` only bounds the recursion and does not limit
anything the theorems claim. -/
def workerRetries (envs : Nat → Bool × Except String Bool × Option String) :
    Nat → Nat → Nat
  | 0, _ => 0
  | fuel + 1, r =>
    match send_notification_task r (envs r).1 (envs r).2.1 (envs r).2.2 with
    | TaskOutcome.raised (PyExc.retryExc _) => 1 + workerRetries envs fuel (r + 1)
    | _ => 0

/-- Running the loop over a prefix of channels none of which returns
True just accumulates their names onto the failed list. -/
lemma sendLoop_append_failed (notif : Notification) (pre rest : List Channel)
    (failed : List String)
    (hpre : ∀ ch ∈ pre, ch.send ≠ SendOutcome.ok true) :
    sendLoop notif (pre ++ rest) failed
      = sendLoop notif rest (failed ++ pre.map Channel.channel_name) := by
  induction pre generalizing failed with
  | nil => simp
  | cons c pre ih =>
    have hc : c.send ≠ SendOutcome.ok true := hpre c (List.mem_cons_self c pre)
    have hpre' : ∀ ch ∈ pre, ch.send ≠ SendOutcome.ok true :=
      fun ch hch => hpre ch (List.mem_cons_of_mem c hch)
    rw [List.cons_append]
    match hs : c.send with
    | SendOutcome.ok true => exact absurd hs hc
    | SendOutcome.ok false =>
      simp only [sendLoop, hs]
      rw [ih _ hpre']
      simp
    | SendOutcome.raises e =>
      simp only [sendLoop, hs]
      rw [ih _ hpre']
      simp

/-- Names already on the failed list stay on the reported failed list. -/
lemma sendLoop_failed_mono (notif : Notification) (channels : List Channel)
    (failed : List String) (x : String) (hx : x ∈ failed) :
    x ∈ (sendLoop notif channels failed).failed_channels := by
  induction channels generalizing failed with
  | nil => simpa [sendLoop] using hx
  | cons c rest ih =>
    match hs : c.send with
    | SendOutcome.ok true => simp only [sendLoop, hs]; exact hx
    | SendOutcome.ok false =>
      simp only [sendLoop, hs]
      exact ih _ (List.mem_append_left _ hx)
    | SendOutcome.raises e =>
      simp only [sendLoop, hs]
      exact ih _ (List.mem_append_left _ hx)

/-- The loop never touches sent_at: the final record keeps the value the
record was created with. -/
lemma sendLoop_sent_at (notif : Notification) (channels : List Channel)
    (failed : List String) :
    (sendLoop notif channels failed).record.sent_at = notif.sent_at := by
  induction channels generalizing failed with
  | nil => rfl
  | cons c rest ih =>
    match hs : c.send with
    | SendOutcome.ok true => simp [sendLoop, hs]
    | SendOutcome.ok false => simp only [sendLoop, hs]; exact ih _
    | SendOutcome.raises e => simp only [sendLoop, hs]; exact ih _

/-- If the record enters the loop with empty sent_via and every channel
name is non-empty, then in the final record and in every snapshot the
loop persists, status `sent` holds exactly when sent_via is non-empty. -/
lemma sendLoop_sent_iff (notif : Notification) (channels : List Channel)
    (failed : List String) (hvia : notif.sent_via = "")
    (hnames : ∀ ch ∈ channels, ch.channel_name ≠ "") :
    ((sendLoop notif channels failed).record.status = Status.sent ↔
      (sendLoop notif channels failed).record.sent_via ≠ "")
    ∧ ∀ snap ∈ (sendLoop notif channels failed).saves,
        (snap.status = Status.sent ↔ snap.sent_via ≠ "") := by
  induction channels generalizing failed with
  | nil =>
    constructor
    · simp [sendLoop, hvia]
    · intro snap hsnap
      simp only [sendLoop, List.mem_singleton] at hsnap
      subst hsnap
      simp [hvia]
  | cons c rest ih =>
    have hc : c.channel_name ≠ "" := hnames c (List.mem_cons_self c rest)
    have hnames' : ∀ ch ∈ rest, ch.channel_name ≠ "" :=
      fun ch hch => hnames ch (List.mem_cons_of_mem c hch)
    match hs : c.send with
    | SendOutcome.ok true =>
      constructor
      · simp [sendLoop, hs, hc]
      · intro snap hsnap
        simp only [sendLoop, hs, List.mem_singleton] at hsnap
        subst hsnap
        simp [hc]
    | SendOutcome.ok false =>
      simp only [sendLoop, hs]
      exact ih _ hnames'
    | SendOutcome.raises e =>
      simp only [sendLoop, hs]
      exact ih _ hnames'

/-- A Retry can only escape an execution of the task while retries
remain below the configured maximum. -/
lemma task_retry_bound (r : Nat) (ue : Bool) (eng : Except String Bool)
    (ch : Option String) (c : Nat)
    (h : send_notification_task r ue eng ch = TaskOutcome.raised (PyExc.retryExc c)) :
    r < max_retries := by
  by_contra hr
  have hnot : ¬ r < max_retries := hr
  unfold send_notification_task celeryRetry at h
  simp only [hnot, if_false] at h
  cases ue with
  | false => simp at h
  | true =>
    cases eng with
    | error msg => simp at h
    | ok b => cases b <;> simp at h

/-- Starting at retry count r, the worker loop schedules at most
max_retries - r further retries, whatever the per-execution
environments and however much fuel it is given. -/
lemma workerRetries_le (envs : Nat → Bool × Except String Bool × Option String) :
    ∀ (fuel r : Nat), workerRetries envs fuel r ≤ max_retries - r := by
  intro fuel
  induction fuel with
  | zero => intro r; simp [workerRetries]
  | succ fuel ih =>
    intro r
    unfold workerRetries
    split
    · next c h =>
      have hr := task_retry_bound r _ _ _ c h
      have h2 := ih (r + 1)
      omega
    · exact Nat.zero_le _

/-- Whether an embedded Python call completed without an uncaught
exception escaping to its caller. -/
def noRaise {α : Type} : Except String α → Bool
  | Except.ok _ => true
  | Except.error _ => false

/-- C1: for every non-empty channel ordering, if channel i (1-indexed, in
priority order) is the first channel whose send succeeds, then the run
sets the report's successful_channel to channel i's name, failed_channels
to exactly the names of channels 1..i-1 in attempt order, success to
true, and send() returns True. -/
theorem C1_first_success (subject message : String) (pre rest : List Channel)
    (c : Channel)
    (hpre : ∀ ch ∈ pre, ch.send ≠ SendOutcome.ok true)
    (hc : c.send = SendOutcome.ok true) :
    (NotificationService.send subject message (pre ++ c :: rest)).returned = true ∧
    (get_delivery_report (NotificationService.send subject message (pre ++ c :: rest))).success
      = true ∧
    (get_delivery_report (NotificationService.send subject message (pre ++ c :: rest))).successful_channel
      = some c.channel_name ∧
    (get_delivery_report (NotificationService.send subject message (pre ++ c :: rest))).failed_channels
      = pre.map Channel.channel_name := by
  simp only [NotificationService.send]
  rw [sendLoop_append_failed _ _ _ _ hpre]
  simp [sendLoop, hc, get_delivery_report]

theorem C1_first_success_witness :
    (NotificationService.send "subj" "msg"
        ([⟨"telegram", SendOutcome.ok false⟩] ++
          (⟨"email", SendOutcome.ok true⟩ : Channel) :: [⟨"sms", SendOutcome.ok false⟩])).returned
      = true ∧
    (get_delivery_report (NotificationService.send "subj" "msg"
        ([⟨"telegram", SendOutcome.ok false⟩] ++
          (⟨"email", SendOutcome.ok true⟩ : Channel) :: [⟨"sms", SendOutcome.ok false⟩]))).success
      = true ∧
    (get_delivery_report (NotificationService.send "subj" "msg"
        ([⟨"telegram", SendOutcome.ok false⟩] ++
          (⟨"email", SendOutcome.ok true⟩ : Channel) :: [⟨"sms", SendOutcome.ok false⟩]))).successful_channel
      = some "email" ∧
    (get_delivery_report (NotificationService.send "subj" "msg"
        ([⟨"telegram", SendOutcome.ok false⟩] ++
          (⟨"email", SendOutcome.ok true⟩ : Channel) :: [⟨"sms", SendOutcome.ok false⟩]))).failed_channels
      = ["telegram"] :=
  C1_first_success "subj" "msg" [⟨"telegram", SendOutcome.ok false⟩]
    [⟨"sms", SendOutcome.ok false⟩] ⟨"email", SendOutcome.ok true⟩ (by decide) rfl

/-- C2: for every channel ordering, if every channel's send fails, then
send() returns False and the report has success=false, successful_channel
absent, failed_channels containing every channel's name (length equal to
the number of channels), and the persisted record's status is failed. -/
theorem C2_all_channels_fail (subject message : String) (channels : List Channel)
    (hall : ∀ ch ∈ channels, ch.send ≠ SendOutcome.ok true) :
    (NotificationService.send subject message channels).returned = false ∧
    (get_delivery_report (NotificationService.send subject message channels)).success = false ∧
    (get_delivery_report (NotificationService.send subject message channels)).successful_channel
      = none ∧
    (get_delivery_report (NotificationService.send subject message channels)).failed_channels
      = channels.map Channel.channel_name ∧
    (get_delivery_report (NotificationService.send subject message channels)).failed_channels.length
      = channels.length ∧
    (NotificationService.send subject message channels).record.status = Status.failed := by
  have key := sendLoop_append_failed
    { subject := subject, message := message, status := Status.pending,
      sent_via := "", sent_at := none } channels [] [] hall
  simp only [List.append_nil, List.nil_append] at key
  simp only [NotificationService.send]
  rw [key]
  simp [sendLoop, get_delivery_report]

theorem C2_all_channels_fail_witness :
    (NotificationService.send "subj" "msg"
        [⟨"telegram", SendOutcome.ok false⟩, ⟨"email", SendOutcome.raises "boom"⟩,
         ⟨"sms", SendOutcome.ok false⟩]).returned = false ∧
    (get_delivery_report (NotificationService.send "subj" "msg"
        [⟨"telegram", SendOutcome.ok false⟩, ⟨"email", SendOutcome.raises "boom"⟩,
         ⟨"sms", SendOutcome.ok false⟩])).success = false ∧
    (get_delivery_report (NotificationService.send "subj" "msg"
        [⟨"telegram", SendOutcome.ok false⟩, ⟨"email", SendOutcome.raises "boom"⟩,
         ⟨"sms", SendOutcome.ok false⟩])).successful_channel = none ∧
    (get_delivery_report (NotificationService.send "subj" "msg"
        [⟨"telegram", SendOutcome.ok false⟩, ⟨"email", SendOutcome.raises "boom"⟩,
         ⟨"sms", SendOutcome.ok false⟩])).failed_channels = ["telegram", "email", "sms"] ∧
    (get_delivery_report (NotificationService.send "subj" "msg"
        [⟨"telegram", SendOutcome.ok false⟩, ⟨"email", SendOutcome.raises "boom"⟩,
         ⟨"sms", SendOutcome.ok false⟩])).failed_channels.length = 3 ∧
    (NotificationService.send "subj" "msg"
        [⟨"telegram", SendOutcome.ok false⟩, ⟨"email", SendOutcome.raises "boom"⟩,
         ⟨"sms", SendOutcome.ok false⟩]).record.status = Status.failed :=
  C2_all_channels_fail "subj" "msg"
    [⟨"telegram", SendOutcome.ok false⟩, ⟨"email", SendOutcome.raises "boom"⟩,
     ⟨"sms", SendOutcome.ok false⟩] (by decide)

/-- C3: the claim says the terminal update on success sets sent_at to the
current time; the code never writes sent_at at all, so on every run,
including a successful one where status becomes sent, the persisted
record still has sent_at NULL. -/
theorem C3_sent_at_never_set (subject message : String) (channels : List Channel) :
    (NotificationService.send subject message channels).record.sent_at = none ∧
    (NotificationService.send "s" "m" [⟨"telegram", SendOutcome.ok true⟩]).record.status
      = Status.sent := by
  constructor
  · simp [NotificationService.send, sendLoop_sent_at]
  · rfl

/-- C4: in every Delivery Record state an engine run persists, status is
sent exactly when sent_via is non-empty; the two fields change only in
the same save, never separately (hypothesis: every configured channel
has, as in the source, a non-empty name). -/
theorem C4_sent_iff_sent_via (subject message : String) (channels : List Channel)
    (hnames : ∀ ch ∈ channels, ch.channel_name ≠ "") :
    ((NotificationService.send subject message channels).record.status = Status.sent ↔
      (NotificationService.send subject message channels).record.sent_via ≠ "") ∧
    ∀ snap ∈ (NotificationService.send subject message channels).saves,
      (snap.status = Status.sent ↔ snap.sent_via ≠ "") := by
  have h := sendLoop_sent_iff
    { subject := subject, message := message, status := Status.pending,
      sent_via := "", sent_at := none } channels [] rfl hnames
  constructor
  · simpa [NotificationService.send] using h.1
  · intro snap hsnap
    simp only [NotificationService.send, List.mem_cons] at hsnap
    rcases hsnap with h0 | hmem
    · subst h0; simp
    · exact h.2 snap hmem

theorem C4_sent_iff_sent_via_witness :
    (((NotificationService.send "s" "m"
        [⟨"telegram", SendOutcome.raises "boom"⟩, ⟨"email", SendOutcome.ok true⟩,
         ⟨"sms", SendOutcome.ok false⟩]).record.status = Status.sent ↔
      (NotificationService.send "s" "m"
        [⟨"telegram", SendOutcome.raises "boom"⟩, ⟨"email", SendOutcome.ok true⟩,
         ⟨"sms", SendOutcome.ok false⟩]).record.sent_via ≠ "") ∧
    ∀ snap ∈ (NotificationService.send "s" "m"
        [⟨"telegram", SendOutcome.raises "boom"⟩, ⟨"email", SendOutcome.ok true⟩,
         ⟨"sms", SendOutcome.ok false⟩]).saves,
      (snap.status = Status.sent ↔ snap.sent_via ≠ "")) :=
  C4_sent_iff_sent_via "s" "m"
    [⟨"telegram", SendOutcome.raises "boom"⟩, ⟨"email", SendOutcome.ok true⟩,
     ⟨"sms", SendOutcome.ok false⟩] (by decide)

/-- C7: a run with an empty channel list does not crash: send() returns
False, the record's status becomes failed, and the report has
success=false, failed_channels=[] and total_attempted=0. -/
theorem C7_empty_channel_list (subject message : String) :
    (NotificationService.send subject message []).returned = false ∧
    (NotificationService.send subject message []).record.status = Status.failed ∧
    (get_delivery_report (NotificationService.send subject message [])).success = false ∧
    (get_delivery_report (NotificationService.send subject message [])).failed_channels = [] ∧
    (get_delivery_report (NotificationService.send subject message [])).total_channels_attempted
      = 0 :=
  ⟨rfl, rfl, rfl, rfl, rfl⟩

/-- C5: for every channel variant and every input, send never lets an
exception escape to its caller (the result is always `Except.ok`), and
whenever the underlying transport call raises, send returns the Failure
outcome False. -/
theorem C5_channels_never_raise (st : Settings) (user : User)
    (subject message : String) (mailRes : Except String Unit)
    (twRes : Except String String) (tgRes : Except String TelegramResponse)
    (e1 e2 e3 : String) :
    noRaise (EmailChannel.send st mailRes user subject message) = true ∧
    noRaise (TwilioSMSChannel.send st twRes user subject message) = true ∧
    noRaise (TelegramChannel.send st tgRes user subject message) = true ∧
    EmailChannel.send st (Except.error e1) user subject message = Except.ok false ∧
    TwilioSMSChannel.send st (Except.error e2) user subject message = Except.ok false ∧
    TelegramChannel.send st (Except.error e3) user subject message = Except.ok false := by
  refine ⟨?_, ?_, ?_, ?_, ?_, ?_⟩
  · unfold EmailChannel.send
    split
    · rfl
    · split
      · rfl
      · cases mailRes <;> rfl
  · unfold TwilioSMSChannel.send
    split
    · rfl
    · cases user.userprofile with
      | none => rfl
      | some profile =>
        simp only
        split
        · rfl
        · cases twRes <;> rfl
  · unfold TelegramChannel.send
    cases user.userprofile with
    | none => rfl
    | some profile =>
      simp only
      split
      · rfl
      · split
        · rfl
        · cases tgRes with
          | error e => rfl
          | ok r =>
            show noRaise (if r.status_code = 200 && r.ok then Except.ok true
              else Except.ok false) = true
            split <;> rfl
  · unfold EmailChannel.send
    split
    · rfl
    · split <;> rfl
  · unfold TwilioSMSChannel.send
    split
    · rfl
    · cases user.userprofile with
      | none => rfl
      | some profile =>
        simp only
        split <;> rfl
  · unfold TelegramChannel.send
    cases user.userprofile with
    | none => rfl
    | some profile =>
      simp only
      split
      · rfl
      · split <;> rfl

/-- C6: a channel whose send raises is caught at the per-channel
iteration boundary: the run is identical to one where that channel
merely returned False, the raising channel's name is recorded among the
failed channels, and the chain continues with the remaining channels
(so the error is never re-raised to the caller). -/
theorem C6_raising_channel_contained (subject message : String)
    (pre rest : List Channel) (c : Channel) (e : String)
    (hc : c.send = SendOutcome.raises e)
    (hpre : ∀ ch ∈ pre, ch.send ≠ SendOutcome.ok true) :
    NotificationService.send subject message (pre ++ c :: rest)
      = NotificationService.send subject message
          (pre ++ (⟨c.channel_name, SendOutcome.ok false⟩ : Channel) :: rest) ∧
    c.channel_name ∈
      (NotificationService.send subject message (pre ++ c :: rest)).failed_channels := by
  constructor
  · simp only [NotificationService.send]
    rw [sendLoop_append_failed _ _ _ _ hpre, sendLoop_append_failed _ _ _ _ hpre]
    simp [sendLoop, hc]
  · simp only [NotificationService.send]
    rw [sendLoop_append_failed _ _ _ _ hpre]
    simp only [sendLoop, hc]
    exact sendLoop_failed_mono _ _ _ _ (by simp)

theorem C6_raising_channel_contained_witness :
    (NotificationService.send "subj" "msg"
        ([⟨"telegram", SendOutcome.ok false⟩] ++
          (⟨"email", SendOutcome.raises "smtp down"⟩ : Channel) ::
            [⟨"sms", SendOutcome.ok true⟩])
      = NotificationService.send "subj" "msg"
        ([⟨"telegram", SendOutcome.ok false⟩] ++
          (⟨"email", SendOutcome.ok false⟩ : Channel) :: [⟨"sms", SendOutcome.ok true⟩]) ∧
    "email" ∈ (NotificationService.send "subj" "msg"
        ([⟨"telegram", SendOutcome.ok false⟩] ++
          (⟨"email", SendOutcome.raises "smtp down"⟩ : Channel) ::
            [⟨"sms", SendOutcome.ok true⟩])).failed_channels) :=
  C6_raising_channel_contained "subj" "msg" [⟨"telegram", SendOutcome.ok false⟩]
    [⟨"sms", SendOutcome.ok true⟩] ⟨"email", SendOutcome.raises "smtp down"⟩
    "smtp down" rfl (by decide)

/-- Settings for the chat-then-email scenario: email fully configured,
Twilio unconfigured, Telegram bot token present. -/
def scnSettings : Settings :=
  { EMAIL_HOST_USER := "mailer", EMAIL_HOST_PASSWORD := "pw",
    EMAIL_HOST := "smtp.example.com", DEFAULT_FROM_EMAIL := "noreply@example.com",
    TWILIO_ACCOUNT_SID := none, TWILIO_AUTH_TOKEN := none,
    TWILIO_PHONE_NUMBER := "", TELEGRAM_BOT_TOKEN := some "bot-token" }

/-- Recipient for the scenario: has an email address, no chat identifier
and no phone number. -/
def scnUser : User :=
  { email := "user@example.com",
    userprofile := some { phone_number := none, telegram_chat_id := none } }

/-- The engine run of the scenario: the service's default ordered channel
list for scnUser under scnSettings, with the SMTP send succeeding (the
Telegram and Twilio transports are never reached). -/
def scnRun : RunResult :=
  NotificationService.send "subj" "msg"
    (NotificationService.defaultChannels scnSettings scnUser "subj" "msg"
      (Except.error "unreached") (Except.ok ()) (Except.error "unreached"))

/-- C8 counterexample: the chat-bot channel's stable name is not "chat",
and in the no-chat-identifier, email-succeeds scenario the reported
failed_channels list is not ["chat"] but ["telegram"]. -/
theorem C8_chat_name_counterexample :
    (TelegramChannel.channel_name == "chat") = false ∧
    ((get_delivery_report scnRun).failed_channels == ["chat"]) = false ∧
    (get_delivery_report scnRun).failed_channels = ["telegram"] := by
  refine ⟨rfl, ?_, ?_⟩ <;> rfl

/-- C8 amended: the chat-bot channel's stable lowercase name, as appended
to failed_channels and persisted in sent_via, is "telegram"; for every
recipient with no chat identifier whose email delivery succeeds, the
report is success=true, failed_channels=["telegram"],
successful_channel="email". -/
theorem C8_chat_name_is_telegram (st : Settings) (user : User) (profile : UserProfile)
    (subject message : String) (twRes : Except String String)
    (tgRes : Except String TelegramResponse)
    (hprof : user.userprofile = some profile)
    (hchat : truthy profile.telegram_chat_id = false)
    (hemail : user.email ≠ "")
    (hcfg : st.EMAIL_HOST_USER ≠ "" ∧ st.EMAIL_HOST_PASSWORD ≠ "" ∧ st.EMAIL_HOST ≠ "") :
    TelegramChannel.channel_name = "telegram" ∧
    (get_delivery_report (NotificationService.send subject message
        (NotificationService.defaultChannels st user subject message tgRes
          (Except.ok ()) twRes))).success = true ∧
    (get_delivery_report (NotificationService.send subject message
        (NotificationService.defaultChannels st user subject message tgRes
          (Except.ok ()) twRes))).failed_channels = ["telegram"] ∧
    (get_delivery_report (NotificationService.send subject message
        (NotificationService.defaultChannels st user subject message tgRes
          (Except.ok ()) twRes))).successful_channel = some "email" := by
  have htg : TelegramChannel.send st tgRes user subject message = Except.ok false := by
    unfold TelegramChannel.send
    rw [hprof]
    simp [hchat]
  have hem : EmailChannel.send st (Except.ok ()) user subject message = Except.ok true := by
    unfold EmailChannel.send
    simp [hemail, hcfg.1, hcfg.2.1, hcfg.2.2]
  refine ⟨rfl, ?_, ?_, ?_⟩ <;>
    simp [NotificationService.send, NotificationService.defaultChannels, sendLoop,
      SendOutcome.ofExcept, htg, hem, get_delivery_report,
      TelegramChannel.channel_name, EmailChannel.channel_name]

theorem C8_chat_name_is_telegram_witness :
    TelegramChannel.channel_name = "telegram" ∧
    (get_delivery_report (NotificationService.send "subj" "msg"
        (NotificationService.defaultChannels scnSettings scnUser "subj" "msg"
          (Except.error "unreached") (Except.ok ()) (Except.error "unreached")))).success
      = true ∧
    (get_delivery_report (NotificationService.send "subj" "msg"
        (NotificationService.defaultChannels scnSettings scnUser "subj" "msg"
          (Except.error "unreached") (Except.ok ()) (Except.error "unreached")))).failed_channels
      = ["telegram"] ∧
    (get_delivery_report (NotificationService.send "subj" "msg"
        (NotificationService.defaultChannels scnSettings scnUser "subj" "msg"
          (Except.error "unreached") (Except.ok ()) (Except.error "unreached")))).successful_channel
      = some "email" :=
  C8_chat_name_is_telegram scnSettings scnUser
    { phone_number := none, telegram_chat_id := none } "subj" "msg"
    (Except.error "unreached") (Except.error "unreached") rfl rfl
    (by decide) ⟨by decide, by decide, by decide⟩

/-- C9: when the recipient cannot be resolved (User.DoesNotExist), the
task returns the not-found error dict whatever the retry counter and the
rest of the environment: the outcome is a returned value, not an escaped
Retry, so no retry is scheduled. -/
theorem C9_user_not_found_terminal (retries : Nat) (engine : Except String Bool)
    (lastChannel : Option String) :
    send_notification_task retries false engine lastChannel
      = TaskOutcome.returned TaskReturn.userNotFound := rfl

/-- C10: whatever environments the successive executions see, the worker
loop starting from a fresh task schedules at most max_retries = 3
retries (at most 4 attempts total); and an execution that arrives at the
retry limit with a total engine failure returns the
max-retries-exceeded error dict — a reported terminal failure, not a
silently dropped one and not a further retry. -/
theorem C10_retries_bounded (envs : Nat → Bool × Except String Bool × Option String)
    (fuel : Nat) (lastChannel : Option String) :
    workerRetries envs fuel 0 ≤ max_retries ∧
    send_notification_task max_retries true (Except.ok false) lastChannel
      = TaskOutcome.returned TaskReturn.maxRetriesExceededDict := by
  constructor
  · simpa using workerRetries_le envs fuel 0
  · rfl

end NotifApp
